import Mathlib

/-!
# Verification of the toyxona-backend venue-booking service

A shallow embedding of the business-logic core of the repository
(controllers, route guards, express-validator rule sets and Mongoose
schema hooks) and proofs about it.

Modelling conventions:
* The document store is a `DB` record of in-memory lists; only the
  collections the verified operations touch (users, venues, bookings)
  are carried.  Store-generated ids are `Nat` and are supplied to the
  create operations as an explicit fresh-id argument.
* `reservation_date` is carried as the *parsed* date value (an `Int`
  standing for the JS `Date` ordinal): the controller stores and
  queries dates through the same `new Date(...)` cast, so identifying
  a date string with its parse is faithful for date-equality purposes.
* Enum-typed fields (`role`, venue `status`, booking `status`) are
  carried as inductive types; the express-validator `isIn` checks and
  the Mongoose `enum` constraints are thereby discharged by typing.
* The bcrypt hashing primitive and `bcrypt.compare` are external
  collaborators; operations that touch them are parameterised by a
  hash function `bhash : String → String` (the salted hash of the
  pre-save hook) resp. a comparison `compare : String → String → Bool`.
* Each controller returns an `Outcome` (the serialised response) and
  the post-state of the store.  `AppError message status` failures are
  `Outcome.fail message status`; `express-validator` failures, which
  the controllers return with HTTP code 400, are `Outcome.invalid`
  with the `(field, message)` list.
-/

/-- User roles: the `role` enum of `userModel.js`. -/
inductive Role where
  | admin
  | owner
  | user
  deriving Repr, DecidableEq

/-- Display name of a role, as interpolated into the `authorize`
middleware message. -/
def Role.name : Role → String
  | .admin => "admin"
  | .owner => "owner"
  | .user => "user"

/-- Venue status enum of `venueModel.js`: `tasdiqlangan` (approved) and
`tasdiqlanmagan` (pending, the schema default). -/
inductive VenueStatus where
  | tasdiqlangan
  | tasdiqlanmagan
  deriving Repr, DecidableEq

/-- Booking status enum of `bookingModel.js`: `endiBoladigan`
(upcoming, the schema default) and `bolibOtgan` (past). -/
inductive BookingStatus where
  | endiBoladigan
  | bolibOtgan
  deriving Repr, DecidableEq

/-- A stored User document (fields of `userModel.js`; the stored
`password` is whatever the pre-save hook left there). -/
structure User where
  id : Nat
  firstname : String
  lastname : String
  username : String
  password : String
  role : Role
  deriving Repr, DecidableEq

/-- A stored Venue document (fields of `venueModel.js`). -/
structure Venue where
  id : Nat
  name : String
  district_id : Nat
  address : String
  capacity : Int
  price_seat : Int
  phone_number : String
  status : VenueStatus
  owner_id : Nat
  deriving Repr, DecidableEq

/-- A stored Booking document (fields of `bookingModel.js`);
`reservation_date` is the parsed date value. -/
structure Booking where
  id : Nat
  venue_id : Nat
  reservation_date : Int
  guest_count : Int
  client_phone : String
  user_id : Nat
  status : BookingStatus
  deriving Repr, DecidableEq

/-- The document store: the collections the verified operations touch.
(The Image and District collections play no part in the verified
claims and are omitted.) -/
structure DB where
  users : List User
  venues : List Venue
  bookings : List Booking
  deriving Repr, DecidableEq

/-- The acting principal: `protect` resolves the bearer token to a user
document and attaches it as `req.user`; the controllers read only its
`id` and `role`. -/
structure Principal where
  id : Nat
  role : Role
  deriving Repr, DecidableEq

/-- The serialised response of a controller: a success payload with its
HTTP status, an `AppError(message, status)` failure, or an
express-validator violation list (returned with HTTP 400). -/
inductive Outcome (α : Type) where
  | ok (status : Nat) (data : α)
  | fail (message : String) (status : Nat)
  | invalid (errors : List (String × String))
  deriving Repr, DecidableEq

/-- The HTTP status code an outcome is sent with. -/
def Outcome.statusCode : Outcome α → Nat
  | .ok s _ => s
  | .fail _ s => s
  | .invalid _ => 400

/-- `Venue.findById`. -/
def findVenue (db : DB) (vid : Nat) : Option Venue :=
  db.venues.find? (fun v => v.id == vid)

/-- `Booking.findById`. -/
def findBooking (db : DB) (bid : Nat) : Option Booking :=
  db.bookings.find? (fun b => b.id == bid)

/-- `User.findById`. -/
def findUser (db : DB) (uid : Nat) : Option User :=
  db.users.find? (fun u => u.id == uid)

/-- `User.findOne({ username })`. -/
def findUserByUsername (db : DB) (uname : String) : Option User :=
  db.users.find? (fun u => u.username == uname)

/-- JS truthiness for optional string body fields: an absent field and
an empty string are both falsy. -/
def jsStr : Option String → Option String
  | none => none
  | some s => if s = "" then none else some s

/-- The request body of `POST /api/bookings`.  `venue_id` presence and
the ISO-8601 shape of `reservation_date` are discharged by typing. -/
structure BookingBody where
  venue_id : Nat
  reservation_date : Int
  guest_count : Int
  client_phone : String
  deriving Repr, DecidableEq

/-- The `validateBooking` rule set of `validationMiddleware.js`,
restricted to the constraints expressible on the typed body:
`guest_count` must be an integer ≥ 1 and `client_phone` non-empty. -/
def validateBookingErrors (b : BookingBody) : List (String × String) :=
  (if b.guest_count < 1 then
    [("guest_count", "Guest count must be a positive number")] else []) ++
  (if b.client_phone = "" then
    [("client_phone", "Client phone number is required")] else [])

/-- `Booking.findOne({ venue_id, reservation_date })`, optionally with
`_id: { $ne: excl }` for the update-path conflict query. -/
def findConflict (bs : List Booking) (vid : Nat) (date : Int)
    (excl : Option Nat) : Option Booking :=
  bs.find? (fun b =>
    b.venue_id == vid && b.reservation_date == date &&
      (match excl with
       | none => true
       | some e => !(b.id == e)))

/-- `createBooking` of `bookingController.js`: validation result, venue
existence, approval status, capacity, date-conflict pre-check, then
store with `user_id` forced to the principal and status upcoming.
The route chain is `protect, validateBooking, createBooking`. -/
def createBooking (db : DB) (reqUser : Principal) (newId : Nat)
    (body : BookingBody) : Outcome Booking × DB :=
  if validateBookingErrors body ≠ [] then
    (.invalid (validateBookingErrors body), db)
  else
    match findVenue db body.venue_id with
    | none => (.fail "Venue not found" 404, db)
    | some venue =>
      if venue.status ≠ .tasdiqlangan then
        (.fail "Venue is not approved for bookings" 400, db)
      else if body.guest_count > venue.capacity then
        (.fail ("Guest count exceeds venue capacity of " ++
          toString venue.capacity) 400, db)
      else if (findConflict db.bookings body.venue_id
          body.reservation_date none).isSome then
        (.fail "Venue is already booked for this date" 400, db)
      else
        let booking : Booking :=
          { id := newId
            venue_id := body.venue_id
            reservation_date := body.reservation_date
            guest_count := body.guest_count
            client_phone := body.client_phone
            user_id := reqUser.id
            status := .endiBoladigan }
        (.ok 201 booking, { db with bookings := db.bookings ++ [booking] })

/-- At most one booking per (venue_id, reservation_date) pair: the
composite unique index of `bookingModel.js`. -/
def uniqueVenueDatePairs (bs : List Booking) : Prop :=
  bs.Pairwise (fun a b =>
    a.venue_id ≠ b.venue_id ∨ a.reservation_date ≠ b.reservation_date)

/-- The `PUT /api/bookings/:id` request body: `findByIdAndUpdate` is
handed the whole `req.body`, so every schema path present in the body
is applied — including `status`, `venue_id` and `user_id`.
`reservation_date` carries the parsed date value; the raw-string
versus `toISOString` inequality test of the controller is modelled as
inequality of parsed dates. -/
structure BookingPatch where
  venue_id : Option Nat
  reservation_date : Option Int
  guest_count : Option Int
  client_phone : Option String
  user_id : Option Nat
  status : Option BookingStatus
  deriving Repr, DecidableEq

/-- `Booking.findByIdAndUpdate(id, req.body)`: apply every field
present in the patch. -/
def applyBookingPatch (b : Booking) (p : BookingPatch) : Booking :=
  { b with
    venue_id := p.venue_id.getD b.venue_id
    reservation_date := p.reservation_date.getD b.reservation_date
    guest_count := p.guest_count.getD b.guest_count
    client_phone := p.client_phone.getD b.client_phone
    user_id := p.user_id.getD b.user_id
    status := p.status.getD b.status }

/-- Truthiness of an optional numeric body field: absent and `0` are
falsy. -/
def jsInt : Option Int → Option Int
  | none => none
  | some n => if n = 0 then none else some n

/-- `updateBooking` of `bookingController.js`.  Route chain is
`protect, updateBooking` — no validator is attached, so the
`validationResult` check in the controller never fires.  Authorization
is creator-or-admin.  A truthy `reservation_date` differing from the
stored one triggers the conflict re-check (excluding this booking); a
truthy `guest_count` triggers a capacity re-check against the
re-fetched venue (a missing venue makes the JS dereference `null` and
surface as a generic 500).  `findByIdAndUpdate` then applies the whole
patch with `runValidators` (modelled: the `guest_count ≥ 1` schema
minimum on a patched value). -/
def updateBooking (db : DB) (reqUser : Principal) (bid : Nat)
    (patch : BookingPatch) : Outcome Booking × DB :=
  match findBooking db bid with
  | none => (.fail "Booking not found" 404, db)
  | some booking =>
    if booking.user_id ≠ reqUser.id ∧ reqUser.role ≠ .admin then
      (.fail "Not authorized to update this booking" 403, db)
    else if (match patch.reservation_date with
             | some d => d != booking.reservation_date &&
                 (findConflict db.bookings booking.venue_id d
                   (some booking.id)).isSome
             | none => false) then
      (.fail "Venue is already booked for this date" 400, db)
    else
      match jsInt patch.guest_count with
      | some g =>
        (match findVenue db booking.venue_id with
         | none => (.fail "Cannot read properties of null" 500, db)
         | some venue =>
           if g > venue.capacity then
             (.fail ("Guest count exceeds venue capacity of " ++
               toString venue.capacity) 400, db)
           else if g < 1 then (.fail "Booking validation failed" 400, db)
           else
             let booking' := applyBookingPatch booking patch
             let bookings' := db.bookings.map
               (fun b => if b.id == bid then booking' else b)
             (.ok 200 booking', { db with bookings := bookings' }))
      | none =>
        let booking' := applyBookingPatch booking patch
        let bookings' := db.bookings.map
          (fun b => if b.id == bid then booking' else b)
        (.ok 200 booking', { db with bookings := bookings' })

/-- `changeBookingStatus` of `bookingController.js`.  Route chain is
`protect, validateBookingStatus, changeBookingStatus`: the body must
carry a `status` in the booking-status enum.  Authorization is
venue-owner-or-admin (not the booking creator); the venue is fetched
for its `owner_id` (a missing venue surfaces as a generic 500 from the
`null` dereference).  Then `findByIdAndUpdate` applies `{ status }`. -/
def changeBookingStatus (db : DB) (reqUser : Principal) (bid : Nat)
    (bodyStatus : Option BookingStatus) : Outcome Booking × DB :=
  match bodyStatus with
  | none => (.invalid [("status", "Status is required")], db)
  | some s =>
    match findBooking db bid with
    | none => (.fail "Booking not found" 404, db)
    | some booking =>
      let doUpdate : Outcome Booking × DB :=
        let booking' := { booking with status := s }
        let bookings' := db.bookings.map
          (fun b => if b.id == bid then booking' else b)
        (.ok 200 booking', { db with bookings := bookings' })
      -- the JS `&&` short-circuits: an admin never dereferences the venue
      if reqUser.role = .admin then doUpdate
      else
        match findVenue db booking.venue_id with
        | none => (.fail "Cannot read properties of null" 500, db)
        | some venue =>
          if venue.owner_id ≠ reqUser.id then
            (.fail "Not authorized to change booking status" 403, db)
          else doUpdate

/-- The venue request body (`POST /api/venues` and `PUT
/api/venues/:id` share the `validateVenue` rule set, which requires
every main field).  `status` is optional and enum-checked (typed);
`owner_id`, though never validated, is a schema path and passes
through `findByIdAndUpdate` on update when a client supplies it. -/
structure VenueBody where
  name : String
  district_id : Nat
  address : String
  capacity : Int
  price_seat : Int
  phone_number : String
  status : Option VenueStatus
  owner_id : Option Nat
  deriving Repr, DecidableEq

/-- The `validateVenue` rule set of `validationMiddleware.js`,
restricted to the constraints expressible on the typed body
(`district_id` presence is discharged by typing). -/
def validateVenueErrors (b : VenueBody) : List (String × String) :=
  (if b.name = "" then [("name", "Name is required")] else []) ++
  (if b.address = "" then [("address", "Address is required")] else []) ++
  (if b.capacity < 1 then
    [("capacity", "Capacity must be a positive number")] else []) ++
  (if b.price_seat < 0 then
    [("price_seat", "Price per seat must be a positive number")] else []) ++
  (if b.phone_number = "" then
    [("phone_number", "Phone number is required")] else [])

/-- The `authorize(...roles)` middleware: 403 with a role-naming
message when the role of the principal is outside the allowed list. -/
def authorizeCheck (allowed : List Role) (reqUser : Principal) : Option (Outcome α) :=
  if reqUser.role ∉ allowed then
    some (.fail ("Role " ++ reqUser.role.name ++
      " is not authorized to access this route") 403)
  else none

/-- `createVenue` of `venueController.js`: validation, then
`Venue.create({ ...req.body, owner_id: req.user.id })` — `owner_id` is
forced to the principal, but every other body field (including a
supplied `status`) is stored as given; the schema defaults `status` to
pending only when the body omits it.  (The best-effort image batch
insert for uploaded files touches only the Image collection, which is
outside this model.) -/
def createVenue (db : DB) (reqUser : Principal) (newId : Nat)
    (body : VenueBody) : Outcome Venue × DB :=
  if validateVenueErrors body ≠ [] then
    (.invalid (validateVenueErrors body), db)
  else
    let v : Venue :=
      { id := newId
        name := body.name
        district_id := body.district_id
        address := body.address
        capacity := body.capacity
        price_seat := body.price_seat
        phone_number := body.phone_number
        status := body.status.getD .tasdiqlanmagan
        owner_id := reqUser.id }
    (.ok 201 v, { db with venues := db.venues ++ [v] })

/-- The full `POST /api/venues` route chain:
`protect, authorize("owner", "admin"), validateVenue, createVenue`. -/
def createVenueRoute (db : DB) (reqUser : Principal) (newId : Nat)
    (body : VenueBody) : Outcome Venue × DB :=
  match authorizeCheck [.owner, .admin] reqUser with
  | some e => (e, db)
  | none => createVenue db reqUser newId body

/-- `Venue.findByIdAndUpdate(id, req.body)` with the fully validated
venue body: every present field is applied. -/
def applyVenueBody (v : Venue) (b : VenueBody) : Venue :=
  { v with
    name := b.name
    district_id := b.district_id
    address := b.address
    capacity := b.capacity
    price_seat := b.price_seat
    phone_number := b.phone_number
    status := b.status.getD v.status
    owner_id := b.owner_id.getD v.owner_id }

/-- `updateVenue` of `venueController.js`.  Route chain is
`protect, validateVenue, updateVenue` — note there is no
`authorize` middleware, the ownership check lives in the controller:
validation first (400), then existence (404), then
owner-or-admin (403); a truthy `status` in the body is silently
deleted for non-admins; then `findByIdAndUpdate` applies the body. -/
def updateVenue (db : DB) (reqUser : Principal) (vid : Nat)
    (body : VenueBody) : Outcome Venue × DB :=
  if validateVenueErrors body ≠ [] then
    (.invalid (validateVenueErrors body), db)
  else
    match findVenue db vid with
    | none => (.fail "Venue not found" 404, db)
    | some venue =>
      if venue.owner_id ≠ reqUser.id ∧ reqUser.role ≠ .admin then
        (.fail "Not authorized to update this venue" 403, db)
      else
        let body' :=
          if body.status.isSome ∧ reqUser.role ≠ .admin then
            { body with status := none }
          else body
        let venue' := applyVenueBody venue body'
        let venues' := db.venues.map
          (fun v => if v.id == vid then venue' else v)
        (.ok 200 venue', { db with venues := venues' })

/-- `approveVenue` of `venueController.js` (controller body):
existence check, then `findByIdAndUpdate(id, { status: approved })` —
unconditional, whatever the current status. -/
def approveVenue (db : DB) (vid : Nat) : Outcome Venue × DB :=
  match findVenue db vid with
  | none => (.fail "Venue not found" 404, db)
  | some venue =>
    let venue' := { venue with status := VenueStatus.tasdiqlangan }
    let venues' := db.venues.map
      (fun v => if v.id == vid then { v with status := VenueStatus.tasdiqlangan } else v)
    (.ok 200 venue', { db with venues := venues' })

/-- The full `PUT /api/venues/:id/approve` route chain:
`protect, authorize("admin"), approveVenue`. -/
def approveVenueRoute (db : DB) (reqUser : Principal) (vid : Nat) :
    Outcome Venue × DB :=
  match authorizeCheck [.admin] reqUser with
  | some e => (e, db)
  | none => approveVenue db vid

/-- The `userSchema.pre of save` hook of `userModel.js`: the password
is (salted-)hashed exactly when the password path was modified since
the document was loaded; otherwise the stored value is kept as is.
`bhash` is the external bcrypt primitive. -/
def userPreSaveHook (bhash : String → String) (passwordModified : Bool)
    (u : User) : User :=
  if passwordModified then { u with password := bhash u.password } else u

/-- The `POST /api/auth/register` body.  The `role` field is optional;
the `validateUser` rule set constrains it to the role enum (typed). -/
structure RegisterBody where
  firstname : String
  lastname : String
  username : String
  password : String
  role : Option Role
  deriving Repr, DecidableEq

/-- The `validateUser` rule set of `validationMiddleware.js`,
restricted to the constraints expressible on the typed body. -/
def validateUserErrors (b : RegisterBody) : List (String × String) :=
  (if b.firstname = "" then [("firstname", "First name is required")] else []) ++
  (if b.lastname = "" then [("lastname", "Last name is required")] else []) ++
  (if b.username = "" then [("username", "Username is required")] else []) ++
  (if b.password.length < 6 then
    [("password", "Password must be at least 6 characters")] else [])

/-- `register` of `authController.js`.  The route
`POST /api/auth/register` is public — `protect` is not in in its chain,
so no principal parameter appears here: any unauthenticated caller
reaches this operation.  Validation, duplicate-username check, then
`User.create` with the role falling back to plain user; the create
path saves a freshly set password, so the pre-save hook hashes it. -/
def register (bhash : String → String) (db : DB) (newId : Nat)
    (b : RegisterBody) : Outcome User × DB :=
  if validateUserErrors b ≠ [] then (.invalid (validateUserErrors b), db)
  else
    match findUserByUsername db b.username with
    | some _ => (.fail "User already exists" 400, db)
    | none =>
      let u := userPreSaveHook bhash true
        { id := newId
          firstname := b.firstname
          lastname := b.lastname
          username := b.username
          password := b.password
          role := b.role.getD .user }
      (.ok 201 u, { db with users := db.users ++ [u] })

/-- The `POST /api/auth/login` body. -/
structure LoginBody where
  username : String
  password : String
  deriving Repr, DecidableEq

/-- The `validateLogin` rule set of `validationMiddleware.js`. -/
def validateLoginErrors (b : LoginBody) : List (String × String) :=
  (if b.username = "" then [("username", "Username is required")] else []) ++
  (if b.password = "" then [("password", "Password is required")] else [])

/-- `login` of `authController.js`: validation, lookup by username
(with the password selected), then `matchPassword` — the bcrypt
comparison `compare` of the entered password against the stored hash.
Both failure causes answer `AppError("Invalid credentials", 401)`.
`login` never mutates the store, so only the outcome is returned. -/
def login (compare : String → String → Bool) (db : DB) (b : LoginBody) :
    Outcome User :=
  if validateLoginErrors b ≠ [] then .invalid (validateLoginErrors b)
  else
    match findUserByUsername db b.username with
    | none => .fail "Invalid credentials" 401
    | some u =>
      if compare b.password u.password then .ok 200 u
      else .fail "Invalid credentials" 401

/-- The `PUT /api/users/:id` body.  `updateUser` destructures only
`firstname`, `lastname`, `username` and `role` from it; a `password`
field may be supplied by the caller but is never read. -/
structure UserUpdateBody where
  firstname : Option String
  lastname : Option String
  username : Option String
  role : Option Role
  password : Option String
  deriving Repr, DecidableEq

/-- `updateUser` of `userController.js`.  Route chain is
`protect, authorize("admin"), updateUser` — no validator is attached,
so the `validationResult` check never fires.  Truthy `firstname`,
`lastname`, `username` (after a collision check against other users)
and `role` are assigned onto the loaded document and it is saved; the
`password` path is never assigned, so `isModified` is false at save
time and the pre-save hook leaves the stored password untouched. -/
def updateUser (bhash : String → String) (db : DB) (uid : Nat)
    (body : UserUpdateBody) : Outcome User × DB :=
  match findUser db uid with
  | none => (.fail "User not found" 404, db)
  | some u =>
    let collision : Bool :=
      match jsStr body.username with
      | some un =>
        match findUserByUsername db un with
        | some other => other.id != u.id
        | none => false
      | none => false
    if collision then (.fail "Username is already taken" 400, db)
    else
      let u' : User :=
        { u with
          firstname := (jsStr body.firstname).getD u.firstname
          lastname := (jsStr body.lastname).getD u.lastname
          username := (jsStr body.username).getD u.username
          role := body.role.getD u.role }
      let saved := userPreSaveHook bhash false u'
      let users' := db.users.map (fun x => if x.id == uid then saved else x)
      (.ok 200 saved, { db with users := users' })

/-- The full `PUT /api/users/:id` route chain:
`protect, authorize("admin"), updateUser`. -/
def updateUserRoute (bhash : String → String) (db : DB)
    (reqUser : Principal) (uid : Nat) (body : UserUpdateBody) :
    Outcome User × DB :=
  match authorizeCheck [.admin] reqUser with
  | some e => (e, db)
  | none => updateUser bhash db uid body

example :
    (createBooking
      { users := [], venues := [⟨1, "Saroy", 3, "Yunusobod", 100, 5, "+998", .tasdiqlangan, 10⟩],
        bookings := [] }
      ⟨20, .user⟩ 7 ⟨1, 1000, 50, "+998901234567"⟩).1 =
      .ok 201 ⟨7, 1, 1000, 50, "+998901234567", 20, .endiBoladigan⟩ := by
  decide

example :
    (createBooking
      { users := [], venues := [⟨1, "Saroy", 3, "Yunusobod", 100, 5, "+998", .tasdiqlangan, 10⟩],
        bookings := [⟨7, 1, 1000, 50, "+998", 20, .endiBoladigan⟩] }
      ⟨21, .user⟩ 8 ⟨1, 1000, 40, "+998901234567"⟩).1 =
      .fail "Venue is already booked for this date" 400 := by
  decide
/-- C1: a createBooking request whose (venue_id, parsed reservation_date)
pair is already booked never stores a new Booking; when the request
passes the earlier guards (valid body, existing approved venue, guest
count within capacity) it fails with exactly (400, already booked); and
createBooking preserves the at-most-one-booking-per-pair invariant of
the composite unique index. -/
theorem createBooking_conflict_unique
    (db : DB) (p : Principal) (newId : Nat) (body : BookingBody)
    (hconf : (findConflict db.bookings body.venue_id body.reservation_date none).isSome = true) :
    (createBooking db p newId body).2 = db ∧
    (∀ venue, validateBookingErrors body = [] →
      findVenue db body.venue_id = some venue →
      venue.status = .tasdiqlangan →
      body.guest_count ≤ venue.capacity →
      (createBooking db p newId body).1 =
        .fail "Venue is already booked for this date" 400) ∧
    (∀ (db' : DB) (p' : Principal) (id' : Nat) (b' : BookingBody),
      uniqueVenueDatePairs db'.bookings →
      uniqueVenueDatePairs (createBooking db' p' id' b').2.bookings) := by
  refine ⟨?_, ?_, ?_⟩
  · unfold createBooking
    split
    · rfl
    · split
      · rfl
      · split
        · rfl
        · split
          · rfl
          · simp [hconf]
  · intro venue hval hfind hst hle
    unfold createBooking
    simp [hval, hfind, hst, not_lt.mpr hle, hconf]
  · intro db' p' id' b' hu
    unfold createBooking
    split
    · exact hu
    · split
      · exact hu
      · split
        · exact hu
        · split
          · exact hu
          · split
            · exact hu
            · rename_i hnone
              have hfc : findConflict db'.bookings b'.venue_id b'.reservation_date none = none := by
                cases h : findConflict db'.bookings b'.venue_id b'.reservation_date none
                · rfl
                · simp [h] at hnone
              unfold uniqueVenueDatePairs at hu ⊢
              simp only
              rw [List.pairwise_append]
              refine ⟨hu, List.pairwise_singleton _ _, ?_⟩
              intro a ha b hb
              simp only [List.mem_singleton] at hb
              subst hb
              have hna := List.find?_eq_none.mp hfc a ha
              simp [findConflict] at hna ⊢
              tauto
/-- Witness for C1: a concrete conflicting request is rejected with
(400, already booked) and the store is unchanged. -/
theorem createBooking_conflict_unique_witness :
    (createBooking
      { users := [],
        venues := [⟨1, "Saroy", 3, "Yunusobod", 100, 5, "+998", .tasdiqlangan, 10⟩],
        bookings := [⟨7, 1, 1000, 50, "+998", 20, .endiBoladigan⟩] }
      ⟨21, .user⟩ 8 ⟨1, 1000, 40, "+998901234567"⟩).1 =
      .fail "Venue is already booked for this date" 400 ∧
    (createBooking
      { users := [],
        venues := [⟨1, "Saroy", 3, "Yunusobod", 100, 5, "+998", .tasdiqlangan, 10⟩],
        bookings := [⟨7, 1, 1000, 50, "+998", 20, .endiBoladigan⟩] }
      ⟨21, .user⟩ 8 ⟨1, 1000, 40, "+998901234567"⟩).2 =
      { users := [],
        venues := [⟨1, "Saroy", 3, "Yunusobod", 100, 5, "+998", .tasdiqlangan, 10⟩],
        bookings := [⟨7, 1, 1000, 50, "+998", 20, .endiBoladigan⟩] } :=
  have h := createBooking_conflict_unique
    { users := [],
      venues := [⟨1, "Saroy", 3, "Yunusobod", 100, 5, "+998", .tasdiqlangan, 10⟩],
      bookings := [⟨7, 1, 1000, 50, "+998", 20, .endiBoladigan⟩] }
    ⟨21, .user⟩ 8 ⟨1, 1000, 40, "+998901234567"⟩ (by decide)
  ⟨h.2.1 ⟨1, "Saroy", 3, "Yunusobod", 100, 5, "+998", .tasdiqlangan, 10⟩
    (by decide) (by decide) (by decide) (by decide), h.1⟩

/-- C5: a createBooking request that references an existing venue whose
status is not approved fails with HTTP 400 (either the not-approved
rejection or, for an invalid body, the validation response) and the
store is unchanged. -/
theorem createBooking_unapproved_rejected
    (db : DB) (p : Principal) (newId : Nat) (body : BookingBody) (venue : Venue)
    (hfind : findVenue db body.venue_id = some venue)
    (hst : venue.status ≠ .tasdiqlangan) :
    (createBooking db p newId body).1.statusCode = 400 ∧
    (createBooking db p newId body).2 = db := by
  unfold createBooking
  split
  · exact ⟨rfl, rfl⟩
  · simp [hfind, hst, Outcome.statusCode]

/-- Witness for C5 at a concrete pending venue. -/
theorem createBooking_unapproved_rejected_witness :
    (createBooking
      { users := [],
        venues := [⟨1, "Saroy", 3, "Yunusobod", 100, 5, "+998", .tasdiqlanmagan, 10⟩],
        bookings := [] }
      ⟨21, .user⟩ 8 ⟨1, 1000, 40, "+998901234567"⟩).1.statusCode = 400 ∧
    (createBooking
      { users := [],
        venues := [⟨1, "Saroy", 3, "Yunusobod", 100, 5, "+998", .tasdiqlanmagan, 10⟩],
        bookings := [] }
      ⟨21, .user⟩ 8 ⟨1, 1000, 40, "+998901234567"⟩).2 =
      { users := [],
        venues := [⟨1, "Saroy", 3, "Yunusobod", 100, 5, "+998", .tasdiqlanmagan, 10⟩],
        bookings := [] } :=
  createBooking_unapproved_rejected _ ⟨21, .user⟩ 8 ⟨1, 1000, 40, "+998901234567"⟩
    ⟨1, "Saroy", 3, "Yunusobod", 100, 5, "+998", .tasdiqlanmagan, 10⟩
    (by decide) (by decide)

/-- C6: createBooking rejects a guest count above the venue capacity
with a 400 whose message carries the capacity value, and updateBooking,
when the patch carries a (truthy) guest count, re-fetches the venue and
rejects the same way when that guest count exceeds its capacity. -/
theorem guestCount_capacity_rejected
    (db : DB) (p : Principal) (newId : Nat) (body : BookingBody) (venue : Venue)
    (hval : validateBookingErrors body = [])
    (hfind : findVenue db body.venue_id = some venue)
    (happ : venue.status = .tasdiqlangan)
    (hgt : body.guest_count > venue.capacity) :
    ((createBooking db p newId body).1 =
      .fail ("Guest count exceeds venue capacity of " ++ toString venue.capacity) 400 ∧
     (createBooking db p newId body).2 = db) ∧
    (∀ (db2 : DB) (p2 : Principal) (bid : Nat) (patch : BookingPatch)
        (bk : Booking) (vn : Venue) (g : Int),
      findBooking db2 bid = some bk →
      (bk.user_id = p2.id ∨ p2.role = .admin) →
      patch.reservation_date = none →
      jsInt patch.guest_count = some g →
      findVenue db2 bk.venue_id = some vn →
      g > vn.capacity →
      (updateBooking db2 p2 bid patch).1 =
        .fail ("Guest count exceeds venue capacity of " ++ toString vn.capacity) 400 ∧
      (updateBooking db2 p2 bid patch).2 = db2) := by
  constructor
  · unfold createBooking
    simp [hval, hfind, happ, hgt]
  · intro db2 p2 bid patch bk vn g hb hauth hdate hg hv hgt2
    unfold updateBooking
    rw [hb]
    simp only [hdate, hg, hv]
    have hnauth : ¬(bk.user_id ≠ p2.id ∧ p2.role ≠ .admin) := by tauto
    simp [hnauth, hgt2]
/-- Witness for C6: concrete capacity-100 venue; a creation with 150
guests and a patch to 150 guests are both rejected citing 100. -/
theorem guestCount_capacity_rejected_witness :
    (createBooking
      { users := [],
        venues := [⟨1, "Saroy", 3, "Yunusobod", 100, 5, "+998", .tasdiqlangan, 10⟩],
        bookings := [] }
      ⟨20, .user⟩ 7 ⟨1, 1000, 150, "+998901234567"⟩).1 =
      .fail ("Guest count exceeds venue capacity of " ++ toString (100 : Int)) 400 ∧
    (updateBooking
      { users := [],
        venues := [⟨1, "Saroy", 3, "Yunusobod", 100, 5, "+998", .tasdiqlangan, 10⟩],
        bookings := [⟨2, 1, 1000, 50, "+998", 20, .endiBoladigan⟩] }
      ⟨20, .user⟩ 2 ⟨none, none, some 150, none, none, none⟩).1 =
      .fail ("Guest count exceeds venue capacity of " ++ toString (100 : Int)) 400 :=
  have h := guestCount_capacity_rejected
    { users := [],
      venues := [⟨1, "Saroy", 3, "Yunusobod", 100, 5, "+998", .tasdiqlangan, 10⟩],
      bookings := [] }
    ⟨20, .user⟩ 7 ⟨1, 1000, 150, "+998901234567"⟩
    ⟨1, "Saroy", 3, "Yunusobod", 100, 5, "+998", .tasdiqlangan, 10⟩
    (by decide) (by decide) (by decide) (by decide)
  ⟨h.1.1,
   (h.2
      { users := [],
        venues := [⟨1, "Saroy", 3, "Yunusobod", 100, 5, "+998", .tasdiqlangan, 10⟩],
        bookings := [⟨2, 1, 1000, 50, "+998", 20, .endiBoladigan⟩] }
      ⟨20, .user⟩ 2 ⟨none, none, some 150, none, none, none⟩
      ⟨2, 1, 1000, 50, "+998", 20, .endiBoladigan⟩
      ⟨1, "Saroy", 3, "Yunusobod", 100, 5, "+998", .tasdiqlangan, 10⟩
      150 (by decide) (Or.inl (by decide)) (by decide) (by decide)
      (by decide) (by decide)).1⟩

/-- Counterexample to C2: the creator of the booking (id 20) is
neither the owner of the referenced venue (id 10) nor an admin, yet updateBooking with a
status field in the patch moves the booking from upcoming to past —
findByIdAndUpdate applies the whole request body, status included. -/
theorem bookingStatus_creator_change_counterexample :
    (findBooking
      { users := [],
        venues := [⟨1, "Saroy", 3, "Yunusobod", 100, 5, "+998", .tasdiqlangan, 10⟩],
        bookings := [⟨2, 1, 1000, 50, "+998", 20, .endiBoladigan⟩] } 2) =
      some ⟨2, 1, 1000, 50, "+998", 20, .endiBoladigan⟩ ∧
    (findVenue
      { users := [],
        venues := [⟨1, "Saroy", 3, "Yunusobod", 100, 5, "+998", .tasdiqlangan, 10⟩],
        bookings := [⟨2, 1, 1000, 50, "+998", 20, .endiBoladigan⟩] } 1) =
      some ⟨1, "Saroy", 3, "Yunusobod", 100, 5, "+998", .tasdiqlangan, 10⟩ ∧
    (20 : Nat) ≠ 10 ∧ Role.user ≠ Role.admin ∧
    (updateBooking
      { users := [],
        venues := [⟨1, "Saroy", 3, "Yunusobod", 100, 5, "+998", .tasdiqlangan, 10⟩],
        bookings := [⟨2, 1, 1000, 50, "+998", 20, .endiBoladigan⟩] }
      ⟨20, .user⟩ 2 ⟨none, none, none, none, none, some .bolibOtgan⟩).1 =
      .ok 200 ⟨2, 1, 1000, 50, "+998", 20, .bolibOtgan⟩ ∧
    findBooking
      (updateBooking
        { users := [],
          venues := [⟨1, "Saroy", 3, "Yunusobod", 100, 5, "+998", .tasdiqlangan, 10⟩],
          bookings := [⟨2, 1, 1000, 50, "+998", 20, .endiBoladigan⟩] }
        ⟨20, .user⟩ 2 ⟨none, none, none, none, none, some .bolibOtgan⟩).2 2 =
      some ⟨2, 1, 1000, 50, "+998", 20, .bolibOtgan⟩ := by
  decide

/-- C2 amended: changeBookingStatus is guarded by
venue-owner-or-admin (a principal who is neither fails with 403 and the
store is unchanged); but updateBooking applies its whole patch,
status included, so the creator of the booking can also change the status
of a booking. -/
theorem bookingStatus_change_paths
    (db : DB) (p : Principal) (bid : Nat) (s : BookingStatus)
    (bk : Booking) (vn : Venue)
    (hb : findBooking db bid = some bk)
    (hv : findVenue db bk.venue_id = some vn)
    (hrole : p.role ≠ .admin) (hown : vn.owner_id ≠ p.id) :
    ((changeBookingStatus db p bid (some s)).1 =
      .fail "Not authorized to change booking status" 403 ∧
     (changeBookingStatus db p bid (some s)).2 = db) ∧
    (∀ (db2 : DB) (p2 : Principal) (bid2 : Nat) (bk2 : Booking) (s2 : BookingStatus),
      findBooking db2 bid2 = some bk2 →
      bk2.user_id = p2.id →
      (updateBooking db2 p2 bid2 ⟨none, none, none, none, none, some s2⟩).1 =
        .ok 200 { bk2 with status := s2 }) := by
  constructor
  · unfold changeBookingStatus
    rw [hb]
    simp [hv, hrole, hown]
  · intro db2 p2 bid2 bk2 s2 hb2 hcreator
    unfold updateBooking
    rw [hb2]
    simp [hcreator, jsInt, applyBookingPatch]

/-- Witness for the amended C2 theorem at a concrete store. -/
theorem bookingStatus_change_paths_witness :
    (changeBookingStatus
      { users := [],
        venues := [⟨1, "Saroy", 3, "Yunusobod", 100, 5, "+998", .tasdiqlangan, 10⟩],
        bookings := [⟨2, 1, 1000, 50, "+998", 20, .endiBoladigan⟩] }
      ⟨20, .user⟩ 2 (some .bolibOtgan)).1 =
      .fail "Not authorized to change booking status" 403 ∧
    (updateBooking
      { users := [],
        venues := [⟨1, "Saroy", 3, "Yunusobod", 100, 5, "+998", .tasdiqlangan, 10⟩],
        bookings := [⟨2, 1, 1000, 50, "+998", 20, .endiBoladigan⟩] }
      ⟨20, .user⟩ 2 ⟨none, none, none, none, none, some .bolibOtgan⟩).1 =
      .ok 200 ⟨2, 1, 1000, 50, "+998", 20, .bolibOtgan⟩ :=
  have h := bookingStatus_change_paths
    { users := [],
      venues := [⟨1, "Saroy", 3, "Yunusobod", 100, 5, "+998", .tasdiqlangan, 10⟩],
      bookings := [⟨2, 1, 1000, 50, "+998", 20, .endiBoladigan⟩] }
    ⟨20, .user⟩ 2 .bolibOtgan
    ⟨2, 1, 1000, 50, "+998", 20, .endiBoladigan⟩
    ⟨1, "Saroy", 3, "Yunusobod", 100, 5, "+998", .tasdiqlangan, 10⟩
    (by decide) (by decide) (by decide) (by decide)
  ⟨h.1.1,
   h.2
     { users := [],
       venues := [⟨1, "Saroy", 3, "Yunusobod", 100, 5, "+998", .tasdiqlangan, 10⟩],
       bookings := [⟨2, 1, 1000, 50, "+998", 20, .endiBoladigan⟩] }
     ⟨20, .user⟩ 2 ⟨2, 1, 1000, 50, "+998", 20, .endiBoladigan⟩ .bolibOtgan
     (by decide) (by decide)⟩
/-- Counterexample to C3: an authenticated owner (not an admin) creates
a venue with `status: approved` in the body; `Venue.create` spreads the
body, so the venue is stored approved, not pending. -/
theorem createVenue_status_counterexample :
    Role.owner ≠ Role.admin ∧
    (createVenueRoute { users := [], venues := [], bookings := [] }
      ⟨5, .owner⟩ 7
      ⟨"Saroy", 3, "Yunusobod", 100, 5, "+998", some .tasdiqlangan, none⟩).1 =
      .ok 201 ⟨7, "Saroy", 3, "Yunusobod", 100, 5, "+998", .tasdiqlangan, 5⟩ ∧
    (createVenueRoute { users := [], venues := [], bookings := [] }
      ⟨5, .owner⟩ 7
      ⟨"Saroy", 3, "Yunusobod", 100, 5, "+998", some .tasdiqlangan, none⟩).2.venues =
      [⟨7, "Saroy", 3, "Yunusobod", 100, 5, "+998", .tasdiqlangan, 5⟩] := by
  decide

/-- C3 amended: a created venue defaults to pending only when the input
omits `status`; a supplied (enum-valid) status is stored as given for
any principal the route admits, owner or admin alike; on update a
status field from a non-admin is silently dropped; and the dedicated
approve operation is admin-only (403 for every other role). -/
theorem createVenue_status_handling
    (db : DB) (p : Principal) (newId : Nat) (b : VenueBody)
    (hrole : p.role = .owner ∨ p.role = .admin)
    (hval : validateVenueErrors b = []) :
    (b.status = none →
      ∃ v, (createVenueRoute db p newId b).1 = .ok 201 v ∧
        v.status = .tasdiqlanmagan ∧
        (createVenueRoute db p newId b).2.venues = db.venues ++ [v]) ∧
    (∀ s, b.status = some s →
      ∃ v, (createVenueRoute db p newId b).1 = .ok 201 v ∧
        v.status = s ∧
        (createVenueRoute db p newId b).2.venues = db.venues ++ [v]) ∧
    (∀ (db2 : DB) (p2 : Principal) (vid : Nat) (b2 : VenueBody) (v2 : Venue),
      validateVenueErrors b2 = [] →
      findVenue db2 vid = some v2 →
      v2.owner_id = p2.id →
      p2.role ≠ .admin →
      ∃ v', (updateVenue db2 p2 vid b2).1 = .ok 200 v' ∧
        v'.status = v2.status) ∧
    (∀ (db3 : DB) (p3 : Principal) (vid3 : Nat), p3.role ≠ .admin →
      (approveVenueRoute db3 p3 vid3).1 =
        .fail ("Role " ++ p3.role.name ++
          " is not authorized to access this route") 403) := by
  have hpass : authorizeCheck (α := Venue) [Role.owner, Role.admin] p = none := by
    unfold authorizeCheck
    rcases hrole with h | h <;> simp [h]
  refine ⟨?_, ?_, ?_, ?_⟩
  · intro hnone
    refine ⟨⟨newId, b.name, b.district_id, b.address, b.capacity,
      b.price_seat, b.phone_number, .tasdiqlanmagan, p.id⟩, ?_, ?_, ?_⟩ <;>
      simp [createVenueRoute, hpass, createVenue, hval, hnone]
  · intro s hs
    refine ⟨⟨newId, b.name, b.district_id, b.address, b.capacity,
      b.price_seat, b.phone_number, s, p.id⟩, ?_, ?_, ?_⟩ <;>
      simp [createVenueRoute, hpass, createVenue, hval, hs]
  · intro db2 p2 vid b2 v2 hval2 hfind2 hown2 hrole2
    cases hbs : b2.status with
    | none =>
      refine ⟨applyVenueBody v2 b2, ?_, ?_⟩ <;>
        simp [updateVenue, hval2, hfind2, hown2, hrole2, applyVenueBody, hbs]
    | some s0 =>
      refine ⟨applyVenueBody v2 { b2 with status := none }, ?_, ?_⟩ <;>
        simp [updateVenue, hval2, hfind2, hown2, hrole2, applyVenueBody, hbs]
  · intro db3 p3 vid3 hrole3
    unfold approveVenueRoute authorizeCheck
    simp [hrole3]
/-- Witness for the amended C3 theorem: with no status in the body the
stored venue is pending; with `status: approved` in the body a
non-admin owner stores it approved. -/
theorem createVenue_status_handling_witness :
    (∃ v, (createVenueRoute { users := [], venues := [], bookings := [] }
        ⟨5, .owner⟩ 7 ⟨"Saroy", 3, "Yunusobod", 100, 5, "+998", none, none⟩).1 =
          .ok 201 v ∧
      v.status = .tasdiqlanmagan ∧
      (createVenueRoute { users := [], venues := [], bookings := [] }
        ⟨5, .owner⟩ 7 ⟨"Saroy", 3, "Yunusobod", 100, 5, "+998", none, none⟩).2.venues =
          [] ++ [v]) ∧
    (∃ v, (createVenueRoute { users := [], venues := [], bookings := [] }
        ⟨5, .owner⟩ 7
        ⟨"Saroy", 3, "Yunusobod", 100, 5, "+998", some .tasdiqlangan, none⟩).1 =
          .ok 201 v ∧
      v.status = .tasdiqlangan ∧
      (createVenueRoute { users := [], venues := [], bookings := [] }
        ⟨5, .owner⟩ 7
        ⟨"Saroy", 3, "Yunusobod", 100, 5, "+998", some .tasdiqlangan, none⟩).2.venues =
          [] ++ [v]) :=
  ⟨(createVenue_status_handling { users := [], venues := [], bookings := [] }
      ⟨5, .owner⟩ 7 ⟨"Saroy", 3, "Yunusobod", 100, 5, "+998", none, none⟩
      (Or.inl rfl) (by decide)).1 rfl,
   ((createVenue_status_handling { users := [], venues := [], bookings := [] }
      ⟨5, .owner⟩ 7 ⟨"Saroy", 3, "Yunusobod", 100, 5, "+998", some .tasdiqlangan, none⟩
      (Or.inl rfl) (by decide)).2.1 .tasdiqlangan rfl)⟩

/-- Counterexample to C4: venue 1 exists and is owned by principal 10;
principal 20 (role owner, not an admin, not the venue owner) sends an
update whose body fails validation — the request fails with 400 (the
validation list), not 403, because `validateVenue` runs before the
ownership check. -/
theorem updateVenue_not403_counterexample :
    findVenue
      { users := [],
        venues := [⟨1, "Saroy", 3, "Yunusobod", 100, 5, "+998", .tasdiqlanmagan, 10⟩],
        bookings := [] } 1 =
      some ⟨1, "Saroy", 3, "Yunusobod", 100, 5, "+998", .tasdiqlanmagan, 10⟩ ∧
    (20 : Nat) ≠ 10 ∧ Role.owner ≠ Role.admin ∧
    (updateVenue
      { users := [],
        venues := [⟨1, "Saroy", 3, "Yunusobod", 100, 5, "+998", .tasdiqlanmagan, 10⟩],
        bookings := [] }
      ⟨20, .owner⟩ 1 ⟨"", 3, "Chilanzar", 100, 5, "+998", none, none⟩).1 =
      .invalid [("name", "Name is required")] ∧
    (updateVenue
      { users := [],
        venues := [⟨1, "Saroy", 3, "Yunusobod", 100, 5, "+998", .tasdiqlanmagan, 10⟩],
        bookings := [] }
      ⟨20, .owner⟩ 1 ⟨"", 3, "Chilanzar", 100, 5, "+998", none, none⟩).1.statusCode =
      400 := by
  decide

/-- C4 amended: when the body passes venue validation and the target
venue exists, a principal who is neither the owner of the venue nor an admin
fails with exactly 403 and the store is unchanged (with an invalid body
the failure is the 400 validation response instead, and 404 when the
venue is absent); an admin never receives a 403 from updateVenue. -/
theorem updateVenue_authorization
    (db : DB) (p : Principal) (vid : Nat) (b : VenueBody) (v : Venue)
    (hval : validateVenueErrors b = [])
    (hfind : findVenue db vid = some v)
    (hown : v.owner_id ≠ p.id) (hrole : p.role ≠ .admin) :
    (updateVenue db p vid b).1 = .fail "Not authorized to update this venue" 403 ∧
    (updateVenue db p vid b).2 = db ∧
    (∀ (db2 : DB) (p2 : Principal) (vid2 : Nat) (b2 : VenueBody),
      p2.role = .admin → (updateVenue db2 p2 vid2 b2).1.statusCode ≠ 403) := by
  refine ⟨?_, ?_, ?_⟩
  · simp [updateVenue, hval, hfind, hown, hrole]
  · simp [updateVenue, hval, hfind, hown, hrole]
  · intro db2 p2 vid2 b2 hadmin
    unfold updateVenue
    split
    · simp [Outcome.statusCode]
    · split
      · simp [Outcome.statusCode]
      · simp [hadmin, Outcome.statusCode]

/-- Witness for the amended C4 theorem at a concrete store. -/
theorem updateVenue_authorization_witness :
    (updateVenue
      { users := [],
        venues := [⟨1, "Saroy", 3, "Yunusobod", 100, 5, "+998", .tasdiqlanmagan, 10⟩],
        bookings := [] }
      ⟨20, .owner⟩ 1 ⟨"Yangi", 3, "Chilanzar", 100, 5, "+998", none, none⟩).1 =
      .fail "Not authorized to update this venue" 403 ∧
    (updateVenue
      { users := [],
        venues := [⟨1, "Saroy", 3, "Yunusobod", 100, 5, "+998", .tasdiqlanmagan, 10⟩],
        bookings := [] }
      ⟨99, .admin⟩ 1 ⟨"Yangi", 3, "Chilanzar", 100, 5, "+998", none, none⟩).1.statusCode ≠
      403 :=
  have h := updateVenue_authorization
    { users := [],
      venues := [⟨1, "Saroy", 3, "Yunusobod", 100, 5, "+998", .tasdiqlanmagan, 10⟩],
      bookings := [] }
    ⟨20, .owner⟩ 1 ⟨"Yangi", 3, "Chilanzar", 100, 5, "+998", none, none⟩
    ⟨1, "Saroy", 3, "Yunusobod", 100, 5, "+998", .tasdiqlanmagan, 10⟩
    (by decide) (by decide) (by decide) (by decide)
  ⟨h.1,
   h.2.2
     { users := [],
       venues := [⟨1, "Saroy", 3, "Yunusobod", 100, 5, "+998", .tasdiqlanmagan, 10⟩],
       bookings := [] }
     ⟨99, .admin⟩ 1 ⟨"Yangi", 3, "Chilanzar", 100, 5, "+998", none, none⟩ rfl⟩
/-- Looking a venue up by id after the approve rewrite finds the
approved copy: the rewrite does not touch ids. -/
lemma find_map_approve (l : List Venue) (vid : Nat) (v : Venue)
    (h : l.find? (fun x => x.id == vid) = some v) :
    (l.map (fun x =>
        if x.id == vid then { x with status := VenueStatus.tasdiqlangan } else x)).find?
      (fun x => x.id == vid) =
      some { v with status := VenueStatus.tasdiqlangan } := by
  induction l with
  | nil => simp at h
  | cons a t ih =>
    by_cases ha : (a.id == vid) = true
    · simp only [List.find?_cons, ha] at h
      obtain rfl : a = v := by injection h
      simp only [List.map_cons, if_pos ha, List.find?_cons]
      simp [ha]
    · simp only [List.find?_cons, ha] at h
      simp only [List.map_cons, if_neg ha, List.find?_cons]
      simp only [Bool.not_eq_true] at ha
      rw [ha]
      exact ih h

/-- The approve rewrite is idempotent on each element. -/
lemma approve_map_idem (l : List Venue) (vid : Nat) :
    (l.map (fun x =>
        if x.id == vid then { x with status := VenueStatus.tasdiqlangan } else x)).map
      (fun x =>
        if x.id == vid then { x with status := VenueStatus.tasdiqlangan } else x) =
    l.map (fun x =>
        if x.id == vid then { x with status := VenueStatus.tasdiqlangan } else x) := by
  rw [List.map_map]
  apply List.map_congr_left
  intro a _
  by_cases ha : a.id = vid <;> simp [ha]

/-- C8: approveVenue run by an admin on an existing venue answers the
approved copy whatever the prior status, stores it approved, and a
second application leaves the stored state exactly as after the
first (idempotence). -/
theorem approveVenue_admin_idempotent
    (db : DB) (p : Principal) (vid : Nat) (v : Venue)
    (hadmin : p.role = .admin)
    (hfind : findVenue db vid = some v) :
    (approveVenueRoute db p vid).1 =
      .ok 200 { v with status := VenueStatus.tasdiqlangan } ∧
    findVenue (approveVenueRoute db p vid).2 vid =
      some { v with status := VenueStatus.tasdiqlangan } ∧
    (approveVenueRoute (approveVenueRoute db p vid).2 p vid).2 =
      (approveVenueRoute db p vid).2 := by
  have hpass : authorizeCheck (α := Venue) [Role.admin] p = none := by
    unfold authorizeCheck
    simp [hadmin]
  have hroute : ∀ d : DB, approveVenueRoute d p vid = approveVenue d vid := by
    intro d
    unfold approveVenueRoute
    rw [hpass]
  have hfirst : approveVenue db vid =
      (.ok 200 { v with status := VenueStatus.tasdiqlangan },
       { db with venues := db.venues.map (fun x =>
           if x.id == vid then { x with status := VenueStatus.tasdiqlangan } else x) }) := by
    unfold approveVenue
    rw [hfind]
  have hfind2 : findVenue (approveVenue db vid).2 vid =
      some { v with status := VenueStatus.tasdiqlangan } := by
    rw [hfirst]
    exact find_map_approve db.venues vid v hfind
  refine ⟨?_, ?_, ?_⟩
  · rw [hroute, hfirst]
  · rw [hroute]
    exact hfind2
  · simp only [hroute]
    rw [hfirst]
    have hf2 : findVenue
        { db with venues := db.venues.map (fun x =>
            if x.id == vid then { x with status := VenueStatus.tasdiqlangan } else x) } vid =
        some { v with status := VenueStatus.tasdiqlangan } := by
      unfold findVenue
      exact find_map_approve db.venues vid v hfind
    unfold approveVenue
    rw [hf2]
    simp only
    rw [approve_map_idem]

/-- Witness for C8: approving a concrete pending venue. -/
theorem approveVenue_admin_idempotent_witness :
    (approveVenueRoute
      { users := [],
        venues := [⟨1, "Saroy", 3, "Yunusobod", 100, 5, "+998", .tasdiqlanmagan, 10⟩],
        bookings := [] } ⟨99, .admin⟩ 1).1 =
      .ok 200 ⟨1, "Saroy", 3, "Yunusobod", 100, 5, "+998", .tasdiqlangan, 10⟩ ∧
    (approveVenueRoute
      (approveVenueRoute
        { users := [],
          venues := [⟨1, "Saroy", 3, "Yunusobod", 100, 5, "+998", .tasdiqlanmagan, 10⟩],
          bookings := [] } ⟨99, .admin⟩ 1).2 ⟨99, .admin⟩ 1).2 =
      (approveVenueRoute
        { users := [],
          venues := [⟨1, "Saroy", 3, "Yunusobod", 100, 5, "+998", .tasdiqlanmagan, 10⟩],
          bookings := [] } ⟨99, .admin⟩ 1).2 :=
  have h := approveVenue_admin_idempotent
    { users := [],
      venues := [⟨1, "Saroy", 3, "Yunusobod", 100, 5, "+998", .tasdiqlanmagan, 10⟩],
      bookings := [] }
    ⟨99, .admin⟩ 1 ⟨1, "Saroy", 3, "Yunusobod", 100, 5, "+998", .tasdiqlanmagan, 10⟩
    rfl (by decide)
  ⟨h.1, h.2.2⟩
/-- Counterexample to C7: an admin user-update carrying a password
leaves the stored password exactly as it was — updateUser destructures
only firstname, lastname, username and role from the body, so with the
hash primitive instantiated as prefixing "hashed-", the stored value
stays "hashed-oldpw" and differs from the hash of the supplied
"newpass123". -/
theorem updateUser_password_counterexample :
    (updateUser (fun s => "hashed-" ++ s)
      { users := [⟨1, "Ali", "Valiyev", "adminboss", "hashed-oldpw", .admin⟩],
        venues := [], bookings := [] }
      1 ⟨none, none, none, none, some "newpass123"⟩).1 =
      .ok 200 ⟨1, "Ali", "Valiyev", "adminboss", "hashed-oldpw", .admin⟩ ∧
    (updateUser (fun s => "hashed-" ++ s)
      { users := [⟨1, "Ali", "Valiyev", "adminboss", "hashed-oldpw", .admin⟩],
        venues := [], bookings := [] }
      1 ⟨none, none, none, none, some "newpass123"⟩).2.users =
      [⟨1, "Ali", "Valiyev", "adminboss", "hashed-oldpw", .admin⟩] ∧
    ("hashed-oldpw" : String) ≠ (fun s => "hashed-" ++ s) "newpass123" := by
  refine ⟨?_, ?_, ?_⟩ <;> decide

/-- C7 amended: a password field in a generic admin user-update is
silently ignored — updateUser never assigns the password path, so the
pre-save hook sees it unmodified and the stored password is unchanged;
registration, by contrast, runs the same hook with the password path
freshly set and stores the hash of the supplied password. -/
theorem updateUser_ignores_password
    (bhash : String → String) (db : DB) (uid : Nat)
    (body : UserUpdateBody) (u u' : User)
    (hfind : findUser db uid = some u)
    (hok : (updateUser bhash db uid body).1 = .ok 200 u') :
    u'.password = u.password ∧
    (∀ (bhash2 : String → String) (db2 : DB) (newId : Nat) (b2 : RegisterBody),
      validateUserErrors b2 = [] →
      findUserByUsername db2 b2.username = none →
      ∃ u2, (register bhash2 db2 newId b2).1 = .ok 201 u2 ∧
        u2.password = bhash2 b2.password) := by
  constructor
  · unfold updateUser at hok
    rw [hfind] at hok
    dsimp only at hok
    by_cases hc : (match jsStr body.username with
      | some un =>
        match findUserByUsername db un with
        | some other => other.id != u.id
        | none => false
      | none => false) = true
    · rw [if_pos hc] at hok
      simp at hok
    · rw [if_neg hc] at hok
      simp only [userPreSaveHook, Bool.false_eq_true, if_false,
        Outcome.ok.injEq, true_and] at hok
      rw [← hok]
  · intro bhash2 db2 newId b2 hval2 hfree2
    refine ⟨userPreSaveHook bhash2 true
      ⟨newId, b2.firstname, b2.lastname, b2.username, b2.password, b2.role.getD .user⟩,
      ?_, ?_⟩ <;>
      simp [register, hval2, hfree2, userPreSaveHook]

/-- Witness for the amended C7 theorem at a concrete store. -/
theorem updateUser_ignores_password_witness :
    ((⟨1, "Ali", "Valiyev", "adminboss", "hashed-oldpw", .admin⟩ : User).password =
      (⟨1, "Ali", "Valiyev", "adminboss", "hashed-oldpw", .admin⟩ : User).password) ∧
    (∃ u2, (register (fun s => "hashed-" ++ s)
        { users := [], venues := [], bookings := [] } 3
        ⟨"Olim", "Karimov", "olim", "secret1", none⟩).1 = .ok 201 u2 ∧
      u2.password = (fun s => "hashed-" ++ s) "secret1") :=
  have h := updateUser_ignores_password (fun s => "hashed-" ++ s)
    { users := [⟨1, "Ali", "Valiyev", "adminboss", "hashed-oldpw", .admin⟩],
      venues := [], bookings := [] }
    1 ⟨none, none, none, none, some "newpass123"⟩
    ⟨1, "Ali", "Valiyev", "adminboss", "hashed-oldpw", .admin⟩
    ⟨1, "Ali", "Valiyev", "adminboss", "hashed-oldpw", .admin⟩
    (by decide) (by decide)
  ⟨by rw [h.1],
   h.2 (fun s => "hashed-" ++ s) { users := [], venues := [], bookings := [] } 3
     ⟨"Olim", "Karimov", "olim", "secret1", none⟩ (by decide) (by decide)⟩

/-- C9: login answers the identical failure — same message "Invalid
credentials", same status 401 — whether no user carries the requested
username or the user exists and the password comparison fails, so the
two causes are indistinguishable from the response. -/
theorem login_indistinguishable_failures
    (compare : String → String → Bool) (db1 db2 : DB) (b : LoginBody) (u : User)
    (hval : validateLoginErrors b = [])
    (h1 : findUserByUsername db1 b.username = none)
    (h2 : findUserByUsername db2 b.username = some u)
    (h3 : compare b.password u.password = false) :
    login compare db1 b = .fail "Invalid credentials" 401 ∧
    login compare db2 b = .fail "Invalid credentials" 401 ∧
    login compare db1 b = login compare db2 b := by
  have e1 : login compare db1 b = .fail "Invalid credentials" 401 := by
    simp [login, hval, h1]
  have e2 : login compare db2 b = .fail "Invalid credentials" 401 := by
    simp [login, hval, h2, h3]
  exact ⟨e1, e2, e1.trans e2.symm⟩

/-- Witness for C9: an absent username and a wrong password over
concrete stores produce equal responses. -/
theorem login_indistinguishable_failures_witness :
    login (fun s t => s == t) { users := [], venues := [], bookings := [] }
        ⟨"olim", "guess1"⟩ =
      .fail "Invalid credentials" 401 ∧
    login (fun s t => s == t)
        { users := [⟨1, "Olim", "Karimov", "olim", "secret1", .user⟩],
          venues := [], bookings := [] }
        ⟨"olim", "guess1"⟩ =
      .fail "Invalid credentials" 401 :=
  have h := login_indistinguishable_failures (fun s t => s == t)
    { users := [], venues := [], bookings := [] }
    { users := [⟨1, "Olim", "Karimov", "olim", "secret1", .user⟩],
      venues := [], bookings := [] }
    ⟨"olim", "guess1"⟩ ⟨1, "Olim", "Karimov", "olim", "secret1", .user⟩
    (by decide) (by decide) (by decide) (by decide)
  ⟨h.1, h.2.1⟩

/-- C10: the public register operation (it takes no principal — the
route mounts no authentication middleware) stores a user with exactly
the role supplied in the body, for any enum role including admin, as
long as the body validates and the username is free. -/
theorem register_stores_supplied_role
    (bhash : String → String) (db : DB) (newId : Nat) (b : RegisterBody) (r : Role)
    (hrole : b.role = some r)
    (hval : validateUserErrors b = [])
    (hfree : findUserByUsername db b.username = none) :
    ∃ u, (register bhash db newId b).1 = .ok 201 u ∧ u.role = r ∧
      (register bhash db newId b).2.users = db.users ++ [u] := by
  refine ⟨userPreSaveHook bhash true
    ⟨newId, b.firstname, b.lastname, b.username, b.password, b.role.getD .user⟩,
    ?_, ?_, ?_⟩ <;>
    simp [register, hval, hfree, userPreSaveHook, hrole]

/-- Witness for C10: an unauthenticated registration with role admin
stores an admin user. -/
theorem register_stores_supplied_role_witness :
    ∃ u, (register (fun s => "hashed-" ++ s)
        { users := [], venues := [], bookings := [] } 3
        ⟨"Ali", "Valiyev", "newadmin", "secret1", some .admin⟩).1 = .ok 201 u ∧
      u.role = .admin ∧
      (register (fun s => "hashed-" ++ s)
        { users := [], venues := [], bookings := [] } 3
        ⟨"Ali", "Valiyev", "newadmin", "secret1", some .admin⟩).2.users =
        [] ++ [u] :=
  register_stores_supplied_role (fun s => "hashed-" ++ s)
    { users := [], venues := [], bookings := [] } 3
    ⟨"Ali", "Valiyev", "newadmin", "secret1", some .admin⟩ .admin
    rfl (by decide) (by decide)
